import Mathlib

/-!
Verification development for the booking/assignment engine of the
Congregation Volunteer Scheduler (browser app persisting to localStorage).

The JavaScript sources are shallowly embedded: localStorage state becomes an
explicit value threaded through operations, JS numbers holding hours or
timestamps become `Int`, JS object fields that may be `undefined` become
`Option`, and JS string falsiness (`""`/`undefined`) is modelled explicitly.
The embedded functions keep the source's names:

* `volunteer-dashboard.js` → namespace `VDB` (self-service booking, the
  30-minute cancellation rule, capacity check at booking time);
* `admin-assignments.js` → namespace `AdminAssignments` (admin drag-and-drop
  assignment, conflict detection);
* `admin-schedules.js` → namespace `AdminSchedules` (per-location slot
  catalogs with a global default set);
* `admin-reports.js` → namespace `AdminReports` (attendance status
  mutations, service-hour resolution chain).
-/

namespace Scheduler

/-- JS string falsiness for a present string: `s || t` picks `t`
when `s` is the empty string. -/
def jsOrStr (s t : String) : String :=
  if s == "" then t else s

/-- JS `x.toLowerCase()` (ASCII case folding, adequate for the app's
identifiers). -/
def jsLower (s : String) : String :=
  ⟨s.data.map Char.toLower⟩

/-- JS truthiness of an optional string field: `undefined` and `""` are
falsy. -/
def strTruthy : Option String → Bool
  | none => false
  | some s => s != ""

/-- JS `o === "lit"` where `o` may be `undefined`. -/
def optEqStr (o : Option String) (t : String) : Bool :=
  match o with
  | some s => s == t
  | none => false

/-- JS `String.prototype.trim()` over the char list. -/
def jsTrim (s : String) : String :=
  ⟨((s.data.dropWhile Char.isWhitespace).reverse.dropWhile Char.isWhitespace).reverse⟩

/-- Replace every run of whitespace by a single marker character, as the
sources do with `.replace(/\s+/g, '-')` (slot ids) and
`.replace(/\s+/g, '.')` (fallback usernames). -/
def squashRunsAux (mark : Char) : Bool → List Char → List Char
  | _, [] => []
  | prevWs, c :: rest =>
    if c.isWhitespace then
      if prevWs then squashRunsAux mark true rest
      else mark :: squashRunsAux mark true rest
    else c :: squashRunsAux mark false rest

/-- JS `str.replace(/\s+/g, mark)` for a single-character replacement. -/
def squashWsWith (mark : Char) (s : String) : String :=
  ⟨squashRunsAux mark false s.data⟩

/-- The `escapeHtml` helper shared by the modules (only the replaced text
matters for the embedded badge renderers). -/
def escapeHtml (s : String) : String :=
  ⟨s.data.flatMap (fun c =>
    if c = '&' then "&amp;".data
    else if c = '<' then "&lt;".data
    else if c = '>' then "&gt;".data
    else [c])⟩

/-- A time slot as stored in `cvsa_location_slots` / `DEFAULT_SLOTS`
(admin-schedules.js). -/
structure Slot where
  id : String
  label : String
  startHour : Int
  endHour : Int
  minVol : Int
  maxVol : Int
deriving Repr, DecidableEq

/-- A location from `cvsa_locations` (admin-locations.js): `slotCapacity`
is the per-slot capacity ceiling used by the volunteer dashboard. -/
structure Location where
  id : String
  name : String
  address : String
  slotCapacity : Nat
deriving Repr, DecidableEq

/-- A volunteer record from `cvsa_volunteers`. -/
structure Volunteer where
  id : String
  name : String
  email : String
  role : String
deriving Repr, DecidableEq

/-- The signed-in user produced by `currentUser()` in
volunteer-dashboard.js. -/
structure User where
  username : String
  displayName : String
  role : String
deriving Repr, DecidableEq

/-- A booking record from `cvsa_bookings`, following the schema comment at
the top of admin-reports.js: optional fields (`volunteerId`, `startHour`,
`endHour`, `status`, `checkedInAt`) may be absent (`undefined` in JS);
plain string fields use `""` for the falsy case. -/
structure Booking where
  id : String
  username : String
  displayName : String
  role : String
  volunteerId : Option String
  locationId : String
  locationName : String
  date : String
  slotId : String
  slotLabel : String
  startHour : Option Int
  endHour : Option Int
  status : Option String
  checkedInAt : Option Int
  createdAt : Int
deriving Repr, DecidableEq

/-- The persisted booking set (`cvsa_bookings`). -/
abbrev BookingStore := List Booking

/-- The persisted per-location slot catalog (`cvsa_location_slots`): a JS
object mapping locationId to a slot array, embedded as an association
list. -/
abbrev SlotMap := List (String × List Slot)

/-- JS object property read `map[locationId]`. -/
def lookupSlots (map : SlotMap) (locationId : String) : Option (List Slot) :=
  (map.find? (fun e => e.1 == locationId)).map (·.2)

/-- JS object property write `map[locationId] = v` (replace the existing
entry or add one). -/
def setEntry : SlotMap → String → List Slot → SlotMap
  | [], k, v => [(k, v)]
  | (k', v') :: rest, k, v =>
    if k' == k then (k, v) :: rest else (k', v') :: setEntry rest k v

namespace AdminSchedules

/-- `DEFAULT_SLOTS` of admin-schedules.js lines 32–40: the global default
catalog of seven two-hour slots from 06:00 to 20:00. -/
def DEFAULT_SLOTS : List Slot :=
  [ ⟨"6-8am", "6:00 AM - 8:00 AM", 6, 8, 1, 4⟩,
    ⟨"8-10am", "8:00 AM - 10:00 AM", 8, 10, 1, 4⟩,
    ⟨"10-12pm", "10:00 AM - 12:00 PM", 10, 12, 1, 4⟩,
    ⟨"12-2pm", "12:00 PM - 2:00 PM", 12, 14, 1, 4⟩,
    ⟨"2-4pm", "2:00 PM - 4:00 PM", 14, 16, 1, 4⟩,
    ⟨"4-6pm", "4:00 PM - 6:00 PM", 16, 18, 1, 4⟩,
    ⟨"6-8pm", "6:00 PM - 8:00 PM", 18, 20, 1, 4⟩ ]

/-- Placeholder for `uniqueId('slot-')`: the source draws a fresh
nondeterministic id from `Date.now()`/`Math.random()`; the claims under
verification never depend on its value. -/
def uniqueIdFallback : String := "slot-fresh"

/-- `normalizeSlot` of admin-schedules.js lines 155–164. `Number(x || 0)`
on an already-numeric hour is the identity (JS falsy numbers are `0`,
mapped to `0`), so the numeric fields pass through. -/
def normalizeSlot (slot : Slot) : Slot :=
  { id := squashWsWith '-' (jsOrStr slot.id (jsOrStr slot.label uniqueIdFallback)),
    label := jsTrim slot.label,
    startHour := slot.startHour,
    endHour := slot.endHour,
    minVol := slot.minVol,
    maxVol := slot.maxVol }

/-- `getSlotsForLocation` of admin-schedules.js lines 97–106: an absent or
empty custom list falls back to a cloned copy of `DEFAULT_SLOTS` (cloning
a pure value is the identity here). -/
def getSlotsForLocation (map : SlotMap) (locationId : String) : List Slot :=
  if locationId == "" then DEFAULT_SLOTS
  else
    match lookupSlots map locationId with
    | none => DEFAULT_SLOTS
    | some custom => if custom.isEmpty then DEFAULT_SLOTS else custom

/-- `setSlotsForLocation` of admin-schedules.js lines 108–114: normalizes
each slot and persists unconditionally (no invariant validation at this
level). -/
def setSlotsForLocation (map : SlotMap) (locationId : String) (slotsArray : List Slot) : SlotMap :=
  if locationId == "" then map
  else setEntry map locationId (slotsArray.map normalizeSlot)

/-- `addSlotToLocation` of admin-schedules.js lines 116–125: starts from
the stored list when the key exists (even an empty array in JS is truthy),
else from `getSlotsForLocation`; then appends the normalized slot. -/
def addSlotToLocation (map : SlotMap) (locationId : String) (slot : Slot) : SlotMap :=
  let list :=
    match lookupSlots map locationId with
    | some l => l
    | none => getSlotsForLocation map locationId
  let slot' := { slot with id := jsOrStr slot.id uniqueIdFallback }
  setEntry map locationId (list ++ [normalizeSlot slot'])

/-- `removeSlotFromLocation` of admin-schedules.js lines 127–135 (the
returned boolean of the source is dropped; the persisted map is what the
claims are about). -/
def removeSlotFromLocation (map : SlotMap) (locationId : String) (slotId : String) : SlotMap :=
  match lookupSlots map locationId with
  | none => map
  | some l => setEntry map locationId (l.filter (fun s => !(s.id == slotId)))

/-- The reset action of admin-schedules.js lines 280–285 (resetBtn
`onConfirm`): overwrite the location's entry with a clone of
`DEFAULT_SLOTS`. -/
def resetToDefault (map : SlotMap) (locationId : String) : SlotMap :=
  setEntry map locationId DEFAULT_SLOTS

/-- Whether one slot row fails the admin UI validation of
admin-schedules.js lines 499–506 (openEditSlotsModal `onConfirm`): label
required, `startHour < endHour`, non-negative min/max, and
`minVol ≤ maxVol` whenever `maxVol > 0`. -/
def uiSlotErrors (s : Slot) : Bool :=
  (s.label == "") || decide (s.startHour ≥ s.endHour) ||
    decide (s.minVol < 0) || decide (s.maxVol < 0) ||
    (decide (s.maxVol > 0) && decide (s.minVol > s.maxVol))

/-- The save path of openEditSlotsModal (admin-schedules.js lines
497–519): abort with validation errors when any slot row is invalid,
otherwise persist through `setSlotsForLocation`. -/
def uiSaveSlots (map : SlotMap) (locationId : String) (slots : List Slot) : Option SlotMap :=
  if slots.any uiSlotErrors then none
  else some (setSlotsForLocation map locationId slots)

end AdminSchedules

namespace VDB

/-- `getBookingsFor` of volunteer-dashboard.js lines 347–350: all persisted
bookings at a `(location, date, slot)` cell, with no status filter.
`getAssignmentsForCell` of admin-assignments.js lines 179–182 is the same
filter. -/
def getBookingsFor (state : BookingStore) (locationId dateStr slotId : String) : List Booking :=
  state.filter (fun b => b.locationId == locationId && b.date == dateStr && b.slotId == slotId)

/-- `getUserBookings` of volunteer-dashboard.js lines 351–354. -/
def getUserBookings (state : BookingStore) (username : String) : List Booking :=
  state.filter (fun b => b.username != "" && jsLower b.username == jsLower username)

/-- `userHasBookingForSlot` of volunteer-dashboard.js lines 355–358:
exact (`===`) match on username and the cell triple, regardless of
status. -/
def userHasBookingForSlot (state : BookingStore) (username locationId dateStr slotId : String) : Bool :=
  state.any (fun b =>
    b.username == username && b.locationId == locationId &&
      b.date == dateStr && b.slotId == slotId)

/-- `addBooking` of volunteer-dashboard.js lines 131–135 (push and save). -/
def addBooking (state : BookingStore) (booking : Booking) : BookingStore :=
  state ++ [booking]

/-- `removeBookingById` of volunteer-dashboard.js lines 136–140: hard
delete of the record with the given id (identical helpers exist in
admin-assignments.js and admin-reports.js). -/
def removeBookingById (state : BookingStore) (id : String) : BookingStore :=
  state.filter (fun b => !(b.id == id))

/-- `slotStartDateTime` of volunteer-dashboard.js lines 173–177, in
epoch milliseconds: local midnight of the booking's date plus the slot's
start hour. -/
def slotStartDateTime (dayStartMs : Int) (startHour : Int) : Int :=
  dayStartMs + startHour * 3600000

/-- The 30-minute cancellation test of volunteer-dashboard.js lines
516–519 (and identically lines 720–723): cancellation proceeds unless
`slotStart - Date.now() < 30 * 60 * 1000`. -/
def cancellationAllowed (slotStartMs nowMs : Int) : Bool :=
  if slotStartMs - nowMs < 30 * 60 * 1000 then false else true

/-- The booking object literal created by the volunteer self-booking flows
(volunteer-dashboard.js lines 483–494 and, field for field the same,
lines 974–985): no `volunteerId`, no `startHour`/`endHour`, and no
`status` field at all. -/
def mkSelfBooking (u : User) (loc : Location) (dateStr : String) (ts : Slot)
    (newId : String) (now : Int) : Booking :=
  { id := newId,
    username := u.username,
    displayName := jsOrStr u.displayName u.username,
    role := jsOrStr u.role "volunteer",
    volunteerId := none,
    locationId := loc.id,
    locationName := loc.name,
    date := dateStr,
    slotId := ts.id,
    slotLabel := ts.label,
    startHour := none,
    endHour := none,
    status := none,
    checkedInAt := none,
    createdAt := now }

/-- Typed outcomes of the self-booking confirm handler. -/
inductive BookError where
  | notSignedIn
  | alreadyBooked
  | slotFull
deriving Repr, DecidableEq

/-- The step-by-step booking confirm handler of volunteer-dashboard.js
lines 931–999: reject when not signed in, when the user already holds a
booking for the exact triple, or when the cell has reached
`slotCapacity`; otherwise persist the new booking. -/
def bookSlot (state : BookingStore) (user : Option User) (loc : Location)
    (dateStr : String) (ts : Slot) (newId : String) (now : Int) :
    Except BookError BookingStore :=
  match user with
  | none => .error .notSignedIn
  | some u =>
    if userHasBookingForSlot state u.username loc.id dateStr ts.id then
      .error .alreadyBooked
    else if (getBookingsFor state loc.id dateStr ts.id).length ≥ loc.slotCapacity then
      .error .slotFull
    else
      .ok (addBooking state (mkSelfBooking u loc dateStr ts newId now))

/-- Typed outcomes of the self-service cancel handler. -/
inductive CancelError where
  | notFound
  | tooLate
deriving Repr, DecidableEq

/-- The self-service cancel handler of volunteer-dashboard.js lines
509–533 (openLocationModal; renderMyAssignments lines 719–731 applies the
same 30-minute rule): find the user's booking for the cell, reject when
within 30 minutes of the slot start, otherwise hard-delete it via
`removeBookingById`. -/
def selfCancel (state : BookingStore) (username locationId dateStr : String)
    (ts : Slot) (dayStartMs nowMs : Int) : Except CancelError BookingStore :=
  match state.find? (fun b =>
      b.username == username && b.locationId == locationId &&
        b.date == dateStr && b.slotId == ts.id) with
  | none => .error .notFound
  | some b =>
    if cancellationAllowed (slotStartDateTime dayStartMs ts.startHour) nowMs then
      .ok (removeBookingById state b.id)
    else
      .error .tooLate

end VDB

namespace AdminAssignments

/-- `slotRange` of admin-assignments.js lines 110–113, applied to a typed
catalog slot (`Number(x || 0)` is the identity on a present numeric
hour). -/
def slotRange (s : Slot) : Int × Int :=
  (s.startHour, s.endHour)

/-- `rangesOverlap` of admin-assignments.js lines 115–117: half-open
interval overlap. -/
def rangesOverlap (aStart aEnd bStart bEnd : Int) : Bool :=
  decide (aStart < bEnd) && decide (bStart < aEnd)

/-- The identity heuristic of `getAssignmentsForVolunteerOnDate`
(admin-assignments.js lines 184–198): a falsy identifier matches nothing;
otherwise match lowercased `username` or `displayName`, or the exact
`volunteerId`. -/
def matchesVolunteer (volIdOrName : String) (b : Booking) : Bool :=
  if volIdOrName == "" then false
  else
    let v := jsLower volIdOrName
    if b.username != "" && jsLower b.username == v then true
    else if b.displayName != "" && jsLower b.displayName == v then true
    else
      match b.volunteerId with
      | some vid => vid != "" && vid == volIdOrName
      | none => false

/-- `getAssignmentsForVolunteerOnDate` of admin-assignments.js lines
184–198: every persisted booking of the volunteer on the date, selected
by the identity heuristic only — there is no status condition. -/
def getAssignmentsForVolunteerOnDate (state : BookingStore)
    (volIdOrName dateStr : String) : List Booking :=
  state.filter (fun b => b.date == dateStr && matchesVolunteer volIdOrName b)

/-- `addAssignment` of admin-assignments.js lines 200–204: unconditional
push of the assignment record — no capacity or duplicate check. -/
def addAssignment (state : BookingStore) (assignment : Booking) : BookingStore :=
  state ++ [assignment]

/-- `removeAssignmentById` of admin-assignments.js lines 206–209. -/
def removeAssignmentById (state : BookingStore) (id : String) : BookingStore :=
  state.filter (fun b => !(b.id == id))

/-- The time-bound resolution inside `detectConflictFor`
(admin-assignments.js lines 219–222): look the booking's `slotId` up in
its location's catalog first, and only on a miss fall back to the
booking's stored `startHour`/`endHour` (`|| 0` defaults). The catalog
comes from `AdminSchedules.getSlotsForLocation` (the module is present in
the app's script setup). -/
def existingRangeFor (map : SlotMap) (b : Booking) : Int × Int :=
  match (AdminSchedules.getSlotsForLocation map b.locationId).find?
      (fun s => s.id == b.slotId) with
  | some slotObj => slotRange slotObj
  | none => (b.startHour.getD 0, b.endHour.getD 0)

/-- The per-booking overlap test of the `detectConflictFor` loop
(admin-assignments.js line 223): the candidate slot's range against the
booking's resolved range. -/
def overlapsCandidate (map : SlotMap) (newSlot : Slot) (b : Booking) : Bool :=
  rangesOverlap (slotRange newSlot).1 (slotRange newSlot).2
    (existingRangeFor map b).1 (existingRangeFor map b).2

/-- `detectConflictFor` of admin-assignments.js lines 214–228: walk the
volunteer's bookings for the date in persisted order and return the first
whose resolved range overlaps the candidate slot's range. -/
def detectConflictFor (map : SlotMap) (state : BookingStore)
    (volIdentifier dateStr : String) (newSlot : Slot) : Option Booking :=
  (getAssignmentsForVolunteerOnDate state volIdentifier dateStr).find?
    (overlapsCandidate map newSlot)

/-- `makeBooking` of admin-assignments.js lines 696–712: the admin
assignment record. Note it carries denormalized `startHour`/`endHour`
and, like the volunteer flows, no `status` field. -/
def makeBooking (vol : Volunteer) (location : Location) (slotObj : Slot)
    (dateStr : String) (newId : String) (now : Int) : Booking :=
  { id := newId,
    username := jsOrStr vol.email (jsOrStr vol.id (squashWsWith '.' (jsLower vol.name))),
    displayName := jsOrStr vol.name (jsOrStr vol.email "Volunteer"),
    role := jsOrStr vol.role "volunteer",
    volunteerId := if vol.id == "" then none else some vol.id,
    locationId := location.id,
    locationName := location.name,
    date := dateStr,
    slotId := slotObj.id,
    slotLabel := slotObj.label,
    startHour := some slotObj.startHour,
    endHour := some slotObj.endHour,
    status := none,
    checkedInAt := none,
    createdAt := now }

end AdminAssignments

namespace AdminReports

/-- Numeric value of a decimal digit character. -/
def digitVal (c : Char) : Nat :=
  c.toNat - '0'.toNat

/-- `:dd` — the optional minutes group `(?::\d{2})?` of the hour-range
regex: consume a colon followed by exactly two digits when present
(consuming it can never turn a failing match into a success, so the
greedy consumption is exact). -/
def matchColonDD : List Char → List Char
  | ':' :: d1 :: d2 :: rest =>
    if d1.isDigit && d2.isDigit then rest else ':' :: d1 :: d2 :: rest
  | cs => cs

/-- The optional case-insensitive `(AM|PM)` group: returns the normalized
marker and the rest. -/
def matchAmPm : List Char → Option (String × List Char)
  | c1 :: c2 :: rest =>
    if (c1 = 'a' || c1 = 'A') && (c2 = 'm' || c2 = 'M') then some ("AM", rest)
    else if (c1 = 'p' || c1 = 'P') && (c2 = 'm' || c2 = 'M') then some ("PM", rest)
    else none
  | _ => none

/-- Greedy `\s*`. -/
def skipWs (cs : List Char) : List Char :=
  cs.dropWhile Char.isWhitespace

/-- After the dash of the hour-range regex:
`\s*(\d{1,2})(?::\d{2})?\s*(AM|PM)?` — everything after the one-or-two
end-hour digits is optional, so the greedy two-digit read needs no
backtracking. -/
def parseEnd (cs : List Char) : Option (Nat × Option String) :=
  match skipWs cs with
  | d1 :: rest =>
    if d1.isDigit then
      let (e, rest') :=
        match rest with
        | d2 :: r2 =>
          if d2.isDigit then (digitVal d1 * 10 + digitVal d2, r2) else (digitVal d1, rest)
        | [] => (digitVal d1, ([] : List Char))
      let r := skipWs (matchColonDD rest')
      some (e, (matchAmPm r).map (·.1))
    else none
  | [] => none

/-- Continuation after the start-hour digits:
`(?::\d{2})?\s*(AM|PM)?\s*[-–]` followed by `parseEnd`. -/
def afterFirst (s : Nat) (cs : List Char) :
    Option (Nat × Option String × Nat × Option String) :=
  let cs1 := skipWs (matchColonDD cs)
  let (asOpt, cs2) :=
    match matchAmPm cs1 with
    | some (m, r) => (some m, r)
    | none => ((none : Option String), cs1)
  match skipWs cs2 with
  | c :: cs3 =>
    if c = '-' || c = '–' then
      (parseEnd cs3).map (fun (e, ae) => (s, asOpt, e, ae))
    else none
  | [] => none

/-- Attempt of the hour-range regex anchored at the current position:
`(\d{1,2})` greedy with the regex's backtracking to one digit (the
fallback can only fail — the next char is then a digit — but is kept for
fidelity). -/
def matchFrom : List Char → Option (Nat × Option String × Nat × Option String)
  | [] => none
  | d1 :: rest =>
    if d1.isDigit then
      match rest with
      | d2 :: r2 =>
        if d2.isDigit then
          match afterFirst (digitVal d1 * 10 + digitVal d2) r2 with
          | some res => some res
          | none => afterFirst (digitVal d1) rest
        else afterFirst (digitVal d1) rest
      | [] => afterFirst (digitVal d1) []
    else none

/-- The unanchored leftmost search of `String.prototype.match` for the
hour-range regex
`(\d{1,2})(?::\d{2})?\s*(AM|PM)?\s*[-–]\s*(\d{1,2})(?::\d{2})?\s*(AM|PM)?`
(case-insensitive). -/
def scanHours : List Char → Option (Nat × Option String × Nat × Option String)
  | [] => none
  | c :: rest =>
    match matchFrom (c :: rest) with
    | some r => some r
    | none => scanHours rest

/-- The label-parsing strategy of `slotHoursFromBooking` (admin-reports.js
lines 125–132), including the 12-hour `PM` adjustment. -/
def parseHourRange (str : String) : Option (Int × Int) :=
  (scanHours str.data).map (fun r =>
    match r with
    | (s, asOpt, e, aeOpt) =>
      let s' := if asOpt == some "PM" && decide (s < 12) then s + 12 else s
      let e' := if aeOpt == some "PM" && decide (e < 12) then e + 12 else e
      ((s' : Int), (e' : Int)))

/-- The id-pattern strategy `(\d+)[^\d]+(\d+)` of `slotHoursFromBooking`
(admin-reports.js lines 134–135): the first maximal digit run, a
non-empty non-digit gap, then the next maximal digit run (the regex's
leftmost-match search reduces to exactly this: a first run without any
later run admits no match anywhere). -/
def parseTwoInts (str : String) : Option (Int × Int) :=
  let cs1 := str.data.dropWhile (fun c => !c.isDigit)
  let r1 := cs1.takeWhile Char.isDigit
  let rest1 := cs1.dropWhile Char.isDigit
  if r1.isEmpty then none
  else if rest1.isEmpty then none
  else
    let rest2 := rest1.dropWhile (fun c => !c.isDigit)
    let r2 := rest2.takeWhile Char.isDigit
    if r2.isEmpty then none
    else some ((r1.foldl (fun acc c => acc * 10 + digitVal c) 0 : Nat),
               (r2.foldl (fun acc c => acc * 10 + digitVal c) 0 : Nat))

/-- The fallback chain of `slotHoursFromBooking` (admin-reports.js lines
121–136), reached when the booking lacks explicit stored hours: catalog
lookup by `slotId` (through `AdminSchedules.getSlotsForLocation`, the
configured path), then the hour-range regex over `slotLabel || slotId`,
then the two-integer id pattern over `slotId`, and finally
`{start: 0, end: 0}`. -/
def slotHoursFallback (map : SlotMap) (b : Booking) : Int × Int :=
  match (AdminSchedules.getSlotsForLocation map b.locationId).find?
      (fun s => s.id == b.slotId) with
  | some slot => (slot.startHour, slot.endHour)
  | none =>
    match parseHourRange (jsOrStr b.slotLabel b.slotId) with
    | some r => r
    | none =>
      match parseTwoInts b.slotId with
      | some r => r
      | none => (0, 0)

/-- `slotHoursFromBooking` of admin-reports.js lines 118–137: explicit
stored `startHour`/`endHour` take priority; everything else goes through
the fallback chain. -/
def slotHoursFromBooking (map : SlotMap) (b : Booking) : Int × Int :=
  match b.startHour, b.endHour with
  | some s, some e => (s, e)
  | _, _ => slotHoursFallback map b

/-- `durationHoursFromBooking` of admin-reports.js lines 139–144. -/
def durationHoursFromBooking (map : SlotMap) (b : Booking) : Int :=
  let h := slotHoursFromBooking map b
  let dur := h.2 - h.1
  if dur < 0 then 0 else dur

/-- The pending/assigned classification of `generateReport`
(admin-reports.js line 338): a booking counts as assigned when its status
is falsy or exactly `"assigned"`. -/
def countsAsAssigned (status : Option String) : Bool :=
  !strTruthy status || optEqStr status "assigned"

/-- `renderStatusBadge` of admin-reports.js lines 579–585, reduced to the
badge text. -/
def renderStatusBadge (status : Option String) : String :=
  if !strTruthy status || optEqStr status "assigned" then "Assigned"
  else if optEqStr status "checked-in" then "Checked-in"
  else if optEqStr status "no-show" then "No-show"
  else if optEqStr status "cancelled" then "Cancelled"
  else escapeHtml (status.getD "")

/-- `saveBookingUpdate` of admin-reports.js lines 804–810: replace the
first record with the same id, or append when none matches. -/
def saveBookingUpdate : BookingStore → Booking → BookingStore
  | [], bk => [bk]
  | x :: rest, bk =>
    if x.id == bk.id then bk :: rest else x :: saveBookingUpdate rest bk

/-- The check-in action of the report tables (admin-reports.js lines
413–418): set status `"checked-in"` and `checkedInAt` on the booking,
then persist through `saveBookingUpdate`. -/
def adminCheckIn (state : BookingStore) (bookingId : String) (now : Int) : BookingStore :=
  match state.find? (fun x => x.id == bookingId) with
  | some bk => saveBookingUpdate state { bk with status := some "checked-in", checkedInAt := some now }
  | none => state

/-- The no-show action of the report tables (admin-reports.js lines
422–425): set status `"no-show"`, then persist. -/
def adminMarkNoShow (state : BookingStore) (bookingId : String) : BookingStore :=
  match state.find? (fun x => x.id == bookingId) with
  | some bk => saveBookingUpdate state { bk with status := some "no-show" }
  | none => state

end AdminReports

namespace ElderDashboard

/-- `renderStatusReadOnly` of elder-dashboard.js lines 418–424, reduced to
the badge text. -/
def renderStatusReadOnly (status : Option String) : String :=
  if !strTruthy status || optEqStr status "assigned" then "Assigned"
  else if optEqStr status "checked-in" then "Checked-in"
  else if optEqStr status "no-show" then "No-show"
  else if optEqStr status "cancelled" then "Cancelled"
  else escapeHtml (status.getD "")

end ElderDashboard

/-- `locations.find(l => l.id === locId)` composed with `.slotCapacity`:
the capacity ceiling the volunteer dashboard applies for a location
id. -/
def capOf (locs : List Location) (locationId : String) : Option Nat :=
  (locs.find? (fun l => l.id == locationId)).map (·.slotCapacity)

/-- Active-booking classification per the spec's glossary (`assigned` or
`checked-in` counts), combined with the code's own convention that a
missing status reads as assigned (admin-reports.js line 338,
elder-dashboard.js line 419). -/
def activeStatus (status : Option String) : Bool :=
  AdminReports.countsAsAssigned status || optEqStr status "checked-in"

/-- The active bookings at a `(location, date, slot)` cell. -/
def activeBookingsAt (state : BookingStore) (locationId dateStr slotId : String) : List Booking :=
  (VDB.getBookingsFor state locationId dateStr slotId).filter (fun b => activeStatus b.status)

/-- The successful booking mutations reachable through the app's UI
without the admin assignment grid: volunteer self-booking and
self-cancellation (volunteer-dashboard.js), admin removal and the
check-in / no-show attendance updates (admin-reports.js). -/
inductive BookingOp where
  | book (u : User) (locationId dateStr : String) (ts : Slot) (newId : String) (now : Int)
  | cancel (username locationId dateStr : String) (ts : Slot) (dayStartMs nowMs : Int)
  | remove (id : String)
  | checkIn (id : String) (now : Int)
  | markNoShow (id : String)

/-- One UI mutation applied to the persisted booking set; rejected
operations leave the stored set untouched (the error paths of the
handlers never write). -/
def stepOp (locs : List Location) (state : BookingStore) : BookingOp → BookingStore
  | .book u locationId dateStr ts newId now =>
    match locs.find? (fun l => l.id == locationId) with
    | none => state
    | some loc =>
      match VDB.bookSlot state (some u) loc dateStr ts newId now with
      | .ok st => st
      | .error _ => state
  | .cancel username locationId dateStr ts dayStartMs nowMs =>
    match VDB.selfCancel state username locationId dateStr ts dayStartMs nowMs with
    | .ok st => st
    | .error _ => state
  | .remove id => VDB.removeBookingById state id
  | .checkIn id now => AdminReports.adminCheckIn state id now
  | .markNoShow id => AdminReports.adminMarkNoShow state id

/-- A sequence of UI mutations. -/
def runOps (locs : List Location) (state : BookingStore) (ops : List BookingOp) : BookingStore :=
  ops.foldl (stepOp locs) state

/-- The capacity invariant over every cell: no more bookings at a
`(location, date, slot)` cell than the location's `slotCapacity`. -/
def CapacityInv (locs : List Location) (state : BookingStore) : Prop :=
  ∀ locationId dateStr slotId cap, capOf locs locationId = some cap →
    (VDB.getBookingsFor state locationId dateStr slotId).length ≤ cap

/-! ### Example fixtures used by concrete theorems -/

/-- A location with capacity 1, for the capacity counterexample. -/
def hallA : Location := ⟨"hallA", "Hall A", "A St.", 1⟩

/-- Directory holding only `hallA`. -/
def locsOne : List Location := [hallA]

/-- The default 06:00–08:00 slot. -/
def slot68 : Slot := ⟨"6-8am", "6:00 AM - 8:00 AM", 6, 8, 1, 4⟩

/-- A 07:00–09:00 slot for the overlap scenario. -/
def slot79 : Slot := ⟨"7-9", "7:00 AM - 9:00 AM", 7, 9, 1, 4⟩

/-- Example volunteer records. -/
def volAlice : Volunteer := ⟨"vol-1", "Alice Smith", "alice@x.org", ""⟩

/-- A second volunteer record. -/
def volBob : Volunteer := ⟨"vol-2", "Bob Jones", "bob@x.org", ""⟩

/-- Example signed-in volunteer user. -/
def userAlice : User := ⟨"alice@x.org", "Alice Smith", "volunteer"⟩

/-- A persisted legacy booking with a cancelled status, stored hours
06:00–08:00, and a slot id absent from every catalog. -/
def cancelledLegacyBooking : Booking :=
  { id := "bk-legacy", username := "alice@x.org", displayName := "Alice Smith",
    role := "volunteer", volunteerId := none, locationId := "hallA",
    locationName := "Hall A", date := "2025-01-10", slotId := "legacy-xyz",
    slotLabel := "", startHour := some 6, endHour := some 8,
    status := some "cancelled", checkedInAt := none, createdAt := 0 }

/-- A booking carrying explicit stored hours 09:00–11:00 that disagree
with the catalog entry its `slotId` resolves to (the default 6-8am
slot). -/
def storedHoursBooking : Booking :=
  { id := "bk-9", username := "bob@x.org", displayName := "Bob Jones",
    role := "volunteer", volunteerId := none, locationId := "hallA",
    locationName := "Hall A", date := "2025-01-10", slotId := "6-8am",
    slotLabel := "6:00 AM - 8:00 AM", startHour := some 9, endHour := some 11,
    status := none, checkedInAt := none, createdAt := 0 }

/-- A slot violating the `startHour < endHour` invariant. -/
def invalidSlot : Slot := ⟨"bad", "Bad Slot", 8, 6, 0, 0⟩

/-! ### Helper lemmas -/

/-- Looking up the key just written by a JS object assignment returns the
written value. -/
theorem lookupSlots_setEntry_self (map : SlotMap) (k : String) (v : List Slot) :
    lookupSlots (setEntry map k v) k = some v := by
  induction map with
  | nil => simp [setEntry, lookupSlots]
  | cons e rest ih =>
    obtain ⟨k', v'⟩ := e
    by_cases hk : k' == k
    · simp [setEntry, hk, lookupSlots]
    · simp only [setEntry, hk, if_false, Bool.false_eq_true]
      simpa [lookupSlots, List.find?, hk] using ih

/-- Appending one element changes a filter's length by one exactly when
the element satisfies the predicate. -/
theorem length_filter_append_single (p : Booking → Bool) (l : List Booking) (b : Booking) :
    ((l ++ [b]).filter p).length
      = (l.filter p).length + (if p b then 1 else 0) := by
  by_cases hb : p b <;> simp [List.filter_append, hb]

/-- Removing records (an extra filter) never increases a cell's booking
count. -/
theorem length_filter_filter_le (p q : Booking → Bool) (l : List Booking) :
    ((l.filter q).filter p).length ≤ (l.filter p).length :=
  ((List.filter_sublist l).filter p).length_le

/-- Replacing the first record carrying a given id with a record of the
same id and the same predicate value preserves a filter's length. -/
theorem saveBookingUpdate_filter_length (p : Booking → Bool) :
    ∀ (state : BookingStore) (bk bk' : Booking),
      bk'.id = bk.id → p bk' = p bk →
      state.find? (fun x => x.id == bk.id) = some bk →
      ((AdminReports.saveBookingUpdate state bk').filter p).length
        = (state.filter p).length := by
  intro state
  induction state with
  | nil => intro bk bk' _ _ hf; simp at hf
  | cons x rest ih =>
    intro bk bk' hid hp hf
    by_cases hx : (x.id == bk.id) = true
    · simp only [List.find?, hx] at hf
      have hxbk : x = bk := by injection hf
      have hx' : (x.id == bk'.id) = true := by rw [hid]; exact hx
      simp only [AdminReports.saveBookingUpdate, hx', if_true]
      subst hxbk
      rw [List.filter_cons, List.filter_cons, hp]
      by_cases hpb : p x = true <;> simp [hpb]
    · rw [Bool.not_eq_true] at hx
      simp only [List.find?, hx] at hf
      have hx' : ¬((x.id == bk'.id) = true) := by rw [hid, hx]; exact Bool.false_ne_true
      simp only [AdminReports.saveBookingUpdate, if_neg hx']
      rw [List.filter_cons, List.filter_cons]
      have hrec := ih bk bk' hid hp hf
      by_cases hpx : p x = true <;> simp [hpx, hrec]

/-- Check-in (a status/`checkedInAt` update through `saveBookingUpdate`)
never changes the length of any filter that ignores those two fields. -/
theorem adminCheckIn_filter_length (p : Booking → Bool)
    (hp : ∀ (b : Booking) (now : Int),
      p { b with status := some "checked-in", checkedInAt := some now } = p b)
    (state : BookingStore) (bookingId : String) (now : Int) :
    ((AdminReports.adminCheckIn state bookingId now).filter p).length
      = (state.filter p).length := by
  simp only [AdminReports.adminCheckIn]
  cases hf : state.find? (fun x => x.id == bookingId) with
  | none => rfl
  | some bk =>
    have hbkid : bk.id = bookingId := by
      have hb : (bk.id == bookingId) = true := by simpa using List.find?_some hf
      exact eq_of_beq hb
    refine saveBookingUpdate_filter_length p state bk _ rfl (hp bk now) ?_
    rw [hbkid]
    exact hf

/-- Marking a no-show likewise preserves any filter that ignores the
status field. -/
theorem adminMarkNoShow_filter_length (p : Booking → Bool)
    (hp : ∀ b : Booking, p { b with status := some "no-show" } = p b)
    (state : BookingStore) (bookingId : String) :
    ((AdminReports.adminMarkNoShow state bookingId).filter p).length
      = (state.filter p).length := by
  simp only [AdminReports.adminMarkNoShow]
  cases hf : state.find? (fun x => x.id == bookingId) with
  | none => rfl
  | some bk =>
    have hbkid : bk.id = bookingId := by
      have hb : (bk.id == bookingId) = true := by simpa using List.find?_some hf
      exact eq_of_beq hb
    refine saveBookingUpdate_filter_length p state bk _ rfl (hp bk) ?_
    rw [hbkid]
    exact hf

/-- Each UI mutation preserves the capacity invariant: the booking flow
checks the cell's count against `slotCapacity` before writing, and every
other operation either deletes records or rewrites a status in place. -/
theorem stepOp_preserves_capacity (locs : List Location) (state : BookingStore)
    (op : BookingOp) (h : CapacityInv locs state) :
    CapacityInv locs (stepOp locs state op) := by
  cases op with
  | book u locationId dateStr ts newId now =>
    simp only [stepOp]
    cases hfl : locs.find? (fun l => l.id == locationId) with
    | none => exact h
    | some loc =>
      simp only [VDB.bookSlot]
      by_cases hdup : VDB.userHasBookingForSlot state u.username loc.id dateStr ts.id = true
      · simp only [hdup, if_true]; exact h
      · simp only [hdup, if_false, Bool.false_eq_true]
        by_cases hcap : (VDB.getBookingsFor state loc.id dateStr ts.id).length ≥ loc.slotCapacity
        · simp only [if_pos hcap]; exact h
        · simp only [if_neg hcap]
          intro lid d s cap hc
          unfold VDB.getBookingsFor VDB.addBooking
          rw [length_filter_append_single]
          set nb := VDB.mkSelfBooking u loc dateStr ts newId now with hnb
          by_cases hmatch : (nb.locationId == lid && nb.date == d && nb.slotId == s) = true
          · rw [if_pos hmatch]
            simp only [Bool.and_eq_true, beq_iff_eq] at hmatch
            obtain ⟨⟨hl, hd⟩, hs⟩ := hmatch
            have hlocid : loc.id = locationId := by
              have hb : (loc.id == locationId) = true := by simpa using List.find?_some hfl
              exact eq_of_beq hb
            have hlid : lid = loc.id := by rw [← hl]; rfl
            have hcapeq : cap = loc.slotCapacity := by
              rw [hlid, hlocid] at hc
              unfold capOf at hc
              rw [hfl] at hc
              exact (Option.some_injective _ hc).symm
            have hlt : (VDB.getBookingsFor state loc.id dateStr ts.id).length
                < loc.slotCapacity := Nat.lt_of_not_le hcap
            have hcells : (List.filter (fun b => b.locationId == lid && b.date == d
                && b.slotId == s) state).length
                = (VDB.getBookingsFor state loc.id dateStr ts.id).length := by
              unfold VDB.getBookingsFor
              rw [hlid, ← hd, ← hs]
              rfl
            omega
          · rw [if_neg hmatch]
            simpa using h lid d s cap hc
  | cancel username locationId dateStr ts dayStartMs nowMs =>
    simp only [stepOp, VDB.selfCancel]
    cases hf : state.find? (fun b => b.username == username && b.locationId == locationId &&
        b.date == dateStr && b.slotId == ts.id) with
    | none => exact h
    | some b =>
      by_cases hok : VDB.cancellationAllowed
          (VDB.slotStartDateTime dayStartMs ts.startHour) nowMs = true
      · simp only [hok, if_true]
        intro lid d s cap hc
        exact le_trans (length_filter_filter_le _ _ state) (h lid d s cap hc)
      · simp only [hok, if_false, Bool.false_eq_true]; exact h
  | remove id =>
    intro lid d s cap hc
    exact le_trans (length_filter_filter_le _ _ state) (h lid d s cap hc)
  | checkIn id now =>
    intro lid d s cap hc
    have heq := adminCheckIn_filter_length
      (fun b => b.locationId == lid && b.date == d && b.slotId == s)
      (fun _ _ => rfl) state id now
    unfold stepOp VDB.getBookingsFor
    rw [heq]
    exact h lid d s cap hc
  | markNoShow id =>
    intro lid d s cap hc
    have heq := adminMarkNoShow_filter_length
      (fun b => b.locationId == lid && b.date == d && b.slotId == s)
      (fun _ => rfl) state id
    unfold stepOp VDB.getBookingsFor
    rw [heq]
    exact h lid d s cap hc

/-- The capacity invariant is preserved across any sequence of UI
mutations. -/
theorem runOps_preserves_capacity (locs : List Location) (ops : List BookingOp) :
    ∀ state : BookingStore, CapacityInv locs state →
      CapacityInv locs (runOps locs state ops) := by
  induction ops with
  | nil => intro state h; exact h
  | cons op ops ih =>
    intro state h
    exact ih (stepOp locs state op) (stepOp_preserves_capacity locs state op h)

/-! ### Claims -/

/-- C3. Self-service cancellation by the owning volunteer succeeds exactly
when the slot's start time minus the current time is at least 30 minutes:
the guard `cancellationAllowed` is equivalent to
`30 min ≤ slotStart − now`; given the owner's booking is found, the
cancel handler succeeds iff that bound holds; and for a 14:00 slot,
cancelling at 13:35 (25 minutes prior) is rejected while cancelling at
13:25 (35 minutes prior) is accepted. -/
theorem c3_cancellation_boundary :
    (∀ slotStartMs nowMs : Int,
      VDB.cancellationAllowed slotStartMs nowMs = true ↔
        30 * 60 * 1000 ≤ slotStartMs - nowMs)
    ∧ (∀ (state : BookingStore) (username locationId dateStr : String) (ts : Slot)
        (dayStartMs nowMs : Int) (b : Booking),
        state.find? (fun x => x.username == username && x.locationId == locationId &&
          x.date == dateStr && x.slotId == ts.id) = some b →
        ((∃ st, VDB.selfCancel state username locationId dateStr ts dayStartMs nowMs = .ok st)
          ↔ 30 * 60 * 1000 ≤ VDB.slotStartDateTime dayStartMs ts.startHour - nowMs))
    ∧ VDB.cancellationAllowed (VDB.slotStartDateTime 0 14) (13 * 3600000 + 35 * 60000) = false
    ∧ VDB.cancellationAllowed (VDB.slotStartDateTime 0 14) (13 * 3600000 + 25 * 60000) = true := by
  have key : ∀ slotStartMs nowMs : Int,
      VDB.cancellationAllowed slotStartMs nowMs = true ↔
        30 * 60 * 1000 ≤ slotStartMs - nowMs := by
    intro s n
    by_cases h : s - n < 30 * 60 * 1000
    · simp only [VDB.cancellationAllowed, if_pos h, Bool.false_eq_true, false_iff]
      omega
    · simp only [VDB.cancellationAllowed, if_neg h, true_iff]
      omega
  refine ⟨key, ?_, by decide, by decide⟩
  intro state username locationId dateStr ts dayStartMs nowMs b hfind
  simp only [VDB.selfCancel, hfind]
  by_cases hok : VDB.cancellationAllowed (VDB.slotStartDateTime dayStartMs ts.startHour) nowMs
  · simp only [hok, if_true]
    exact ⟨fun _ => (key _ _).mp hok, fun _ => ⟨_, rfl⟩⟩
  · simp only [hok, Bool.false_eq_true, if_false]
    constructor
    · rintro ⟨st, hst⟩
      cases hst
    · intro hle
      exact absurd ((key _ _).mpr hle) hok

/-- Witness for C3: a concrete store holding Alice's booking for the
06:00–08:00 slot; cancelling six hours ahead of the start succeeds. -/
theorem c3_cancellation_boundary_witness :
    (∃ st, VDB.selfCancel [VDB.mkSelfBooking userAlice hallA "2025-01-10" slot68 "bk-1" 0]
        "alice@x.org" "hallA" "2025-01-10" slot68 0 0 = .ok st) := by
  exact (c3_cancellation_boundary.2.1
    [VDB.mkSelfBooking userAlice hallA "2025-01-10" slot68 "bk-1" 0]
    "alice@x.org" "hallA" "2025-01-10" slot68 0 0
    (VDB.mkSelfBooking userAlice hallA "2025-01-10" slot68 "bk-1" 0)
    (by decide)).mpr (by decide)

/-- C8. With no stored custom slot list (absent key or empty array) a
location's catalog resolves to the global default set, which is exactly
seven two-hour slots spanning 06:00 through 20:00, and resetting a
location's catalog makes its catalog resolve to that same default set. -/
theorem c8_default_slot_catalog (map : SlotMap) (locationId : String)
    (h : lookupSlots map locationId = none ∨ lookupSlots map locationId = some []) :
    AdminSchedules.getSlotsForLocation map locationId = AdminSchedules.DEFAULT_SLOTS
    ∧ (∀ (map₂ : SlotMap) (lid : String),
        AdminSchedules.getSlotsForLocation (AdminSchedules.resetToDefault map₂ lid) lid
          = AdminSchedules.DEFAULT_SLOTS)
    ∧ AdminSchedules.DEFAULT_SLOTS.length = 7
    ∧ AdminSchedules.DEFAULT_SLOTS.map (fun s => (s.startHour, s.endHour))
        = [(6, 8), (8, 10), (10, 12), (12, 14), (14, 16), (16, 18), (18, 20)] := by
  refine ⟨?_, ?_, by decide, by decide⟩
  · unfold AdminSchedules.getSlotsForLocation
    by_cases hl : locationId == ""
    · simp [hl]
    · rcases h with h | h <;> simp [hl, h, List.isEmpty]
  · intro map₂ lid
    unfold AdminSchedules.getSlotsForLocation AdminSchedules.resetToDefault
    by_cases hl : lid == ""
    · simp [hl]
    · rw [lookupSlots_setEntry_self]
      simp [hl]

/-- Witness for C8: the empty slot map stores nothing for `hallA`, so its
catalog is the default seven-slot set. -/
theorem c8_default_slot_catalog_witness :
    AdminSchedules.getSlotsForLocation [] "hallA" = AdminSchedules.DEFAULT_SLOTS :=
  (c8_default_slot_catalog [] "hallA" (Or.inl rfl)).1

/-- C1 counterexample. Admin-side assignment (`addAssignment`) performs no
capacity check: pushing two assignments into the same
`(location, date, slot)` cell of a capacity-1 location leaves two active
bookings there, exceeding `slotCapacity`. -/
theorem c1_admin_assignment_exceeds_capacity_counterexample :
    capOf locsOne "hallA" = some 1
    ∧ (activeBookingsAt
        (AdminAssignments.addAssignment
          (AdminAssignments.addAssignment []
            (AdminAssignments.makeBooking volAlice hallA slot68 "2025-01-10" "bk-1" 0))
          (AdminAssignments.makeBooking volBob hallA slot68 "2025-01-10" "bk-2" 0))
        "hallA" "2025-01-10" "6-8am").length = 2
    ∧ ¬((2 : Nat) ≤ 1) :=
  ⟨rfl, rfl, by decide⟩

/-- C1 amended. The capacity invariant holds for every sequence of UI
booking mutations that excludes the admin assignment grid — volunteer
BookSlot (which checks the cell's count against `slotCapacity` before
writing), self-service Cancel, admin Remove, CheckIn and MarkNoShow:
starting from any state satisfying it, the count of bookings at each
`(location, date, slot)` cell, and in particular the count of active
(assigned / checked-in) bookings there, stays within the location's
`slotCapacity`. Admin-side `addAssignment` performs no such check and can
violate the bound. -/
theorem c1_capacity_invariant_without_admin_grid (locs : List Location)
    (state : BookingStore) (ops : List BookingOp) (h : CapacityInv locs state) :
    CapacityInv locs (runOps locs state ops)
    ∧ ∀ locationId dateStr slotId cap, capOf locs locationId = some cap →
        (activeBookingsAt (runOps locs state ops) locationId dateStr slotId).length ≤ cap := by
  have hrun := runOps_preserves_capacity locs ops state h
  refine ⟨hrun, ?_⟩
  intro lid d s cap hc
  exact le_trans (List.Sublist.length_le (List.filter_sublist _)) (hrun lid d s cap hc)

/-- Witness for C1 amended: from the empty store, booking Alice into Hall
A (capacity 1) and letting the admin check her in keeps the active count
at the cell within capacity. -/
theorem c1_capacity_invariant_without_admin_grid_witness :
    (activeBookingsAt
      (runOps locsOne []
        [BookingOp.book userAlice "hallA" "2025-01-10" slot68 "bk-1" 0,
         BookingOp.checkIn "bk-1" 5])
      "hallA" "2025-01-10" "6-8am").length ≤ 1 :=
  (c1_capacity_invariant_without_admin_grid locsOne []
      [BookingOp.book userAlice "hallA" "2025-01-10" slot68 "bk-1" 0,
       BookingOp.checkIn "bk-1" 5]
      (fun _ _ _ cap _ => Nat.zero_le cap)).2
    "hallA" "2025-01-10" "6-8am" 1 rfl

/-- C2 counterexample. A successful self-service cancel by the owning
volunteer empties the store: the record is hard-deleted rather than kept
with status `"cancelled"` as the claim states. -/
theorem c2_cancel_hard_delete_counterexample :
    VDB.selfCancel [VDB.mkSelfBooking userAlice hallA "2025-01-10" slot68 "bk-1" 0]
        "alice@x.org" "hallA" "2025-01-10" slot68 0 0 = .ok []
    ∧ ([] : BookingStore) ≠
        [{ VDB.mkSelfBooking userAlice hallA "2025-01-10" slot68 "bk-1" 0 with
            status := some "cancelled" }] :=
  ⟨rfl, by decide⟩

/-- C2 amended. A successful Cancel by the owning volunteer hard-deletes
the booking record from the persisted set (the same `removeBookingById`
deletion used by admin Remove): the result is the original store with
exactly the found booking's id filtered out, and no record with status
`"cancelled"` is written. -/
theorem c2_cancel_is_hard_delete (state : BookingStore) (username locationId dateStr : String)
    (ts : Slot) (dayStartMs nowMs : Int) (st : BookingStore)
    (h : VDB.selfCancel state username locationId dateStr ts dayStartMs nowMs = .ok st) :
    ∃ b, state.find? (fun x => x.username == username && x.locationId == locationId &&
        x.date == dateStr && x.slotId == ts.id) = some b
      ∧ st = state.filter (fun x => !(x.id == b.id)) := by
  unfold VDB.selfCancel at h
  cases hf : state.find? (fun x => x.username == username && x.locationId == locationId &&
      x.date == dateStr && x.slotId == ts.id) with
  | none => rw [hf] at h; simp at h
  | some b =>
    rw [hf] at h
    by_cases hok : VDB.cancellationAllowed (VDB.slotStartDateTime dayStartMs ts.startHour) nowMs
      = true
    · simp only [hok, if_true] at h
      injection h with h
      exact ⟨b, rfl, h.symm⟩
    · simp only [hok, if_false] at h
      simp at h

/-- Witness for C2 amended: the concrete successful cancel from the
counterexample indeed produces the filtered store. -/
theorem c2_cancel_is_hard_delete_witness :
    ∃ b, ([VDB.mkSelfBooking userAlice hallA "2025-01-10" slot68 "bk-1" 0] : BookingStore).find?
        (fun x => x.username == "alice@x.org" && x.locationId == "hallA" &&
          x.date == "2025-01-10" && x.slotId == slot68.id) = some b
      ∧ ([] : BookingStore)
          = [VDB.mkSelfBooking userAlice hallA "2025-01-10" slot68 "bk-1" 0].filter
              (fun x => !(x.id == b.id)) :=
  c2_cancel_is_hard_delete
    [VDB.mkSelfBooking userAlice hallA "2025-01-10" slot68 "bk-1" 0]
    "alice@x.org" "hallA" "2025-01-10" slot68 0 0 [] rfl

/-- The Boolean overlap test unfolds to the half-open interval
condition. -/
theorem overlapsCandidate_iff (map : SlotMap) (newSlot : Slot) (b : Booking) :
    AdminAssignments.overlapsCandidate map newSlot b = true ↔
      (newSlot.startHour < (AdminAssignments.existingRangeFor map b).2
        ∧ (AdminAssignments.existingRangeFor map b).1 < newSlot.endHour) := by
  simp [AdminAssignments.overlapsCandidate, AdminAssignments.rangesOverlap,
    AdminAssignments.slotRange]

/-- C4. The conflict detector reports a conflict exactly when some
existing booking of the volunteer on the date satisfies the half-open
test `candidate.start < other.end ∧ other.start < candidate.end` against
its resolved range, and the reported booking is the first such booking in
persisted order; in particular the intervals `[6,8)` and `[7,9)`
overlap. -/
theorem c4_conflict_half_open_first_match :
    (∀ (map : SlotMap) (state : BookingStore) (volIdentifier dateStr : String)
        (newSlot : Slot) (b : Booking),
      AdminAssignments.detectConflictFor map state volIdentifier dateStr newSlot = some b ↔
        ((newSlot.startHour < (AdminAssignments.existingRangeFor map b).2
            ∧ (AdminAssignments.existingRangeFor map b).1 < newSlot.endHour)
          ∧ ∃ l₁ l₂,
              AdminAssignments.getAssignmentsForVolunteerOnDate state volIdentifier dateStr
                = l₁ ++ b :: l₂
              ∧ ∀ x ∈ l₁,
                  ¬(newSlot.startHour < (AdminAssignments.existingRangeFor map x).2
                    ∧ (AdminAssignments.existingRangeFor map x).1 < newSlot.endHour)))
    ∧ AdminAssignments.rangesOverlap 6 8 7 9 = true := by
  refine ⟨?_, by decide⟩
  intro map state volIdentifier dateStr newSlot b
  unfold AdminAssignments.detectConflictFor
  rw [List.find?_eq_some]
  constructor
  · rintro ⟨hpb, l₁, l₂, heq, hall⟩
    refine ⟨(overlapsCandidate_iff map newSlot b).mp hpb, l₁, l₂, heq, ?_⟩
    intro x hx hcontr
    have hfalse := hall x hx
    rw [Bool.not_eq_true'] at hfalse
    rw [(overlapsCandidate_iff map newSlot x).mpr hcontr] at hfalse
    cases hfalse
  · rintro ⟨hPb, l₁, l₂, heq, hall⟩
    refine ⟨(overlapsCandidate_iff map newSlot b).mpr hPb, l₁, l₂, heq, ?_⟩
    intro x hx
    rw [Bool.not_eq_true']
    cases hpx : AdminAssignments.overlapsCandidate map newSlot x with
    | false => rfl
    | true => exact absurd ((overlapsCandidate_iff map newSlot x).mp hpx) (hall x hx)

/-- C5 counterexample. A persisted booking with status `"cancelled"`
(and an overlapping stored time range) is reported as a conflict: the
detector applies no status filter. -/
theorem c5_cancelled_booking_reported_counterexample :
    cancelledLegacyBooking.status = some "cancelled"
    ∧ AdminAssignments.detectConflictFor [] [cancelledLegacyBooking]
        "alice@x.org" "2025-01-10" slot79 = some cancelledLegacyBooking :=
  ⟨rfl, rfl⟩

/-- C5 amended. The conflict detector considers all of the volunteer's
bookings on the date regardless of status: rewriting every booking's
status field (to `cancelled`, `no-show`, or anything else) changes
neither whether a conflict is reported nor which booking is reported,
and membership in the detector's candidate list depends only on the date
and the identity heuristic, never on status. -/
theorem c5_status_never_filters :
    (∀ (map : SlotMap) (state : BookingStore) (volIdentifier dateStr : String)
        (newSlot : Slot) (f : Booking → Option String),
      AdminAssignments.detectConflictFor map
          (state.map (fun b => { b with status := f b })) volIdentifier dateStr newSlot
        = (AdminAssignments.detectConflictFor map state volIdentifier dateStr newSlot).map
            (fun b => { b with status := f b }))
    ∧ (∀ (state : BookingStore) (volIdOrName dateStr : String) (b : Booking),
        b ∈ AdminAssignments.getAssignmentsForVolunteerOnDate state volIdOrName dateStr ↔
          (b ∈ state ∧ b.date = dateStr
            ∧ AdminAssignments.matchesVolunteer volIdOrName b = true)) := by
  constructor
  · intro map state volIdentifier dateStr newSlot f
    unfold AdminAssignments.detectConflictFor AdminAssignments.getAssignmentsForVolunteerOnDate
    rw [List.filter_map, List.find?_map]
    rfl
  · intro state volIdOrName dateStr b
    unfold AdminAssignments.getAssignmentsForVolunteerOnDate
    rw [List.mem_filter, Bool.and_eq_true, beq_iff_eq]

/-- C6. When the volunteer already holds a booking for the exact
`(location, date, slot)` triple, a second booking attempt returns
`AlreadyBookedError` and leaves the persisted set unchanged — no
duplicate record is added. -/
theorem c6_duplicate_booking_rejected (state : BookingStore) (u : User) (loc : Location)
    (dateStr : String) (ts : Slot) (newId : String) (now : Int) (b : Booking)
    (hb : b ∈ state) (hbu : b.username = u.username) (hbl : b.locationId = loc.id)
    (hbd : b.date = dateStr) (hbs : b.slotId = ts.id) :
    VDB.bookSlot state (some u) loc dateStr ts newId now = .error .alreadyBooked
    ∧ ∀ locs : List Location, locs.find? (fun l => l.id == loc.id) = some loc →
        stepOp locs state (.book u loc.id dateStr ts newId now) = state := by
  have hhas : VDB.userHasBookingForSlot state u.username loc.id dateStr ts.id = true := by
    unfold VDB.userHasBookingForSlot
    rw [List.any_eq_true]
    exact ⟨b, hb, by simp [hbu, hbl, hbd, hbs]⟩
  refine ⟨?_, ?_⟩
  · simp [VDB.bookSlot, hhas]
  · intro locs hfind
    simp [stepOp, hfind, VDB.bookSlot, hhas]

/-- Witness for C6: Alice books 6-8am at Hall A, then a second attempt at
the same triple is rejected with `AlreadyBookedError`. -/
theorem c6_duplicate_booking_rejected_witness :
    VDB.bookSlot [VDB.mkSelfBooking userAlice hallA "2025-01-10" slot68 "bk-1" 0]
        (some userAlice) hallA "2025-01-10" slot68 "bk-2" 5
      = .error .alreadyBooked :=
  (c6_duplicate_booking_rejected
    [VDB.mkSelfBooking userAlice hallA "2025-01-10" slot68 "bk-1" 0]
    userAlice hallA "2025-01-10" slot68 "bk-2" 5
    (VDB.mkSelfBooking userAlice hallA "2025-01-10" slot68 "bk-1" 0)
    (by decide) rfl rfl rfl rfl).1

/-- C7 counterexample. `setSlotsForLocation` persists a slot with
`startHour = 8 > endHour = 6` unchanged — no ValidationError, and the
stored catalog does change. -/
theorem c7_mutation_persists_invalid_slot_counterexample :
    lookupSlots (AdminSchedules.setSlotsForLocation [] "hallA" [invalidSlot]) "hallA"
      = some [invalidSlot]
    ∧ ¬(invalidSlot.startHour < invalidSlot.endHour) :=
  ⟨by decide, by decide⟩

/-- One slot row trips the admin-UI validation exactly when it violates
the TimeSlot invariants. -/
theorem uiSlotErrors_iff (s : Slot) :
    AdminSchedules.uiSlotErrors s = true ↔
      (s.label = "" ∨ s.endHour ≤ s.startHour ∨ s.minVol < 0 ∨ s.maxVol < 0 ∨
        (0 < s.maxVol ∧ s.maxVol < s.minVol)) := by
  simp only [AdminSchedules.uiSlotErrors, Bool.or_eq_true, Bool.and_eq_true,
    decide_eq_true_eq, beq_iff_eq, ge_iff_le, gt_iff_lt]
  tauto

/-- C7 amended. The storage-level mutation functions persist
`normalizeSlot`-coerced slots unconditionally, performing no TimeSlot
invariant validation; the invariant checks (label required,
`startHour < endHour`, non-negative min/max, `minVol ≤ maxVol` when
`maxVolunteers > 0`) are enforced only by the admin UI save handler,
which rejects exactly when some slot row violates them and otherwise
persists through `setSlotsForLocation`. -/
theorem c7_validation_only_in_ui :
    (∀ (map : SlotMap) (locationId : String) (slots : List Slot), locationId ≠ "" →
      lookupSlots (AdminSchedules.setSlotsForLocation map locationId slots) locationId
        = some (slots.map AdminSchedules.normalizeSlot))
    ∧ (∀ (map : SlotMap) (locationId : String) (slots : List Slot),
        AdminSchedules.uiSaveSlots map locationId slots = none ↔
          ∃ s ∈ slots, s.label = "" ∨ s.endHour ≤ s.startHour ∨ s.minVol < 0 ∨
            s.maxVol < 0 ∨ (0 < s.maxVol ∧ s.maxVol < s.minVol)) := by
  constructor
  · intro map locationId slots hne
    unfold AdminSchedules.setSlotsForLocation
    rw [if_neg (by simpa using hne)]
    exact lookupSlots_setEntry_self map locationId _
  · intro map locationId slots
    unfold AdminSchedules.uiSaveSlots
    by_cases h : slots.any AdminSchedules.uiSlotErrors
    · rw [if_pos h]
      rw [List.any_eq_true] at h
      obtain ⟨s, hs, herr⟩ := h
      exact ⟨fun _ => ⟨s, hs, (uiSlotErrors_iff s).mp herr⟩, fun _ => rfl⟩
    · rw [if_neg h]
      constructor
      · intro hcontr; cases hcontr
      · rintro ⟨s, hs, hviol⟩
        exact absurd (List.any_eq_true.mpr ⟨s, hs, (uiSlotErrors_iff s).mpr hviol⟩) h

/-- Witness for C7 amended: writing the default 6-8am slot for `hallA`
stores its normalized form. -/
theorem c7_validation_only_in_ui_witness :
    lookupSlots (AdminSchedules.setSlotsForLocation [] "hallA" [slot68]) "hallA"
      = some [AdminSchedules.normalizeSlot slot68] :=
  c7_validation_only_in_ui.1 [] "hallA" [slot68] (by decide)

/-- C9 counterexample. For a booking with explicit stored hours 9–11
whose `slotId` also resolves in the catalog to the 6–8 default slot, the
service-hour resolution returns the stored hours first, but the conflict
detector's resolution returns the catalog hours first: the claimed single
strategy order (stored hours before slot lookup) does not hold at the
conflict-detection site. -/
theorem c9_resolution_order_counterexample :
    storedHoursBooking.startHour = some 9 ∧ storedHoursBooking.endHour = some 11
    ∧ AdminReports.slotHoursFromBooking [] storedHoursBooking = (9, 11)
    ∧ AdminAssignments.existingRangeFor [] storedHoursBooking = (6, 8)
    ∧ ((9 : Int), (11 : Int)) ≠ ((6 : Int), (8 : Int)) :=
  ⟨rfl, rfl, rfl, rfl, by decide⟩

/-- When the booking lacks a complete pair of stored hours, the report
resolution equals the fallback chain. -/
theorem slotHoursFromBooking_fallback (map : SlotMap) (b : Booking)
    (h : b.startHour = none ∨ b.endHour = none) :
    AdminReports.slotHoursFromBooking map b = AdminReports.slotHoursFallback map b := by
  unfold AdminReports.slotHoursFromBooking
  rcases h with h | h
  · rw [h]
  · rw [h]
    cases b.startHour <;> rfl

/-- C9 amended. Service-hour reporting (`slotHoursFromBooking`) resolves
a booking's bounds in the order: explicit stored hours, catalog lookup by
`slotId`, hour parsing from `slotLabel || slotId`, the encoded-id digit
pattern, then `0–0`. Conflict detection (`existingRangeFor` inside
`detectConflictFor`) instead tries the catalog lookup first and falls
back directly to the stored hours (defaulting to 0), with no text
parsing. -/
theorem c9_resolution_chains :
    (∀ (map : SlotMap) (b : Booking) (s e : Int),
      b.startHour = some s → b.endHour = some e →
      AdminReports.slotHoursFromBooking map b = (s, e))
    ∧ (∀ (map : SlotMap) (b : Booking) (sl : Slot),
        (b.startHour = none ∨ b.endHour = none) →
        (AdminSchedules.getSlotsForLocation map b.locationId).find?
            (fun s => s.id == b.slotId) = some sl →
        AdminReports.slotHoursFromBooking map b = (sl.startHour, sl.endHour))
    ∧ (∀ (map : SlotMap) (b : Booking) (r : Int × Int),
        (b.startHour = none ∨ b.endHour = none) →
        (AdminSchedules.getSlotsForLocation map b.locationId).find?
            (fun s => s.id == b.slotId) = none →
        AdminReports.parseHourRange (jsOrStr b.slotLabel b.slotId) = some r →
        AdminReports.slotHoursFromBooking map b = r)
    ∧ (∀ (map : SlotMap) (b : Booking) (r : Int × Int),
        (b.startHour = none ∨ b.endHour = none) →
        (AdminSchedules.getSlotsForLocation map b.locationId).find?
            (fun s => s.id == b.slotId) = none →
        AdminReports.parseHourRange (jsOrStr b.slotLabel b.slotId) = none →
        AdminReports.parseTwoInts b.slotId = some r →
        AdminReports.slotHoursFromBooking map b = r)
    ∧ (∀ (map : SlotMap) (b : Booking),
        (b.startHour = none ∨ b.endHour = none) →
        (AdminSchedules.getSlotsForLocation map b.locationId).find?
            (fun s => s.id == b.slotId) = none →
        AdminReports.parseHourRange (jsOrStr b.slotLabel b.slotId) = none →
        AdminReports.parseTwoInts b.slotId = none →
        AdminReports.slotHoursFromBooking map b = (0, 0))
    ∧ (∀ (map : SlotMap) (b : Booking) (sl : Slot),
        (AdminSchedules.getSlotsForLocation map b.locationId).find?
            (fun s => s.id == b.slotId) = some sl →
        AdminAssignments.existingRangeFor map b = (sl.startHour, sl.endHour))
    ∧ (∀ (map : SlotMap) (b : Booking),
        (AdminSchedules.getSlotsForLocation map b.locationId).find?
            (fun s => s.id == b.slotId) = none →
        AdminAssignments.existingRangeFor map b
          = (b.startHour.getD 0, b.endHour.getD 0)) := by
  refine ⟨?_, ?_, ?_, ?_, ?_, ?_, ?_⟩
  · intro map b s e hs he
    unfold AdminReports.slotHoursFromBooking
    rw [hs, he]
  · intro map b sl hmiss hfind
    rw [slotHoursFromBooking_fallback map b hmiss]
    unfold AdminReports.slotHoursFallback
    rw [hfind]
  · intro map b r hmiss hfind hlabel
    rw [slotHoursFromBooking_fallback map b hmiss]
    unfold AdminReports.slotHoursFallback
    rw [hfind, hlabel]
  · intro map b r hmiss hfind hlabel hid
    rw [slotHoursFromBooking_fallback map b hmiss]
    unfold AdminReports.slotHoursFallback
    rw [hfind, hlabel, hid]
  · intro map b hmiss hfind hlabel hid
    rw [slotHoursFromBooking_fallback map b hmiss]
    unfold AdminReports.slotHoursFallback
    rw [hfind, hlabel, hid]
  · intro map b sl hfind
    unfold AdminAssignments.existingRangeFor
    rw [hfind]
    rfl
  · intro map b hfind
    unfold AdminAssignments.existingRangeFor
    rw [hfind]

/-- Witness for C9 amended: the stored-hours booking resolves to 9–11 in
reporting, and a booking with an uncatalogued slot id resolves through
the stored-hours fallback on the conflict side. -/
theorem c9_resolution_chains_witness :
    AdminReports.slotHoursFromBooking [] storedHoursBooking = (9, 11)
    ∧ AdminAssignments.existingRangeFor [] cancelledLegacyBooking = (6, 8) :=
  ⟨c9_resolution_chains.1 [] storedHoursBooking 9 11 rfl rfl,
   c9_resolution_chains.2.2.2.2.2.2 [] cancelledLegacyBooking rfl⟩

/-- C10. A booking created by the volunteer self-booking flow carries no
status field, and every status-dependent reader classifies a missing
status as assigned: the report's pending/assigned counter, the report
status badge, and the elder dashboard's read-only badge. -/
theorem c10_missing_status_reads_assigned :
    (∀ (u : User) (loc : Location) (dateStr : String) (ts : Slot) (newId : String) (now : Int),
      (VDB.mkSelfBooking u loc dateStr ts newId now).status = none)
    ∧ AdminReports.countsAsAssigned none = true
    ∧ AdminReports.renderStatusBadge none = "Assigned"
    ∧ ElderDashboard.renderStatusReadOnly none = "Assigned" :=
  ⟨fun _ _ _ _ _ _ => rfl, rfl, rfl, rfl⟩

end Scheduler
